import Mathlib

/-
Verification of the SBDK.dev repository against its design specification.

The repository is a Python CLI toolkit (dlt + DuckDB + dbt + FastAPI).
Below, the routines that the specification makes claims about are embedded
shallowly as executable Lean functions:

* the GitHub webhook handler of
  src/sbdk/templates/fastapi_server/webhook_listener.py,
* the usage-tracking endpoint of the same server,
* the file-watch / debounce / auto-rerun state machine of
  src/sbdk-dev/sbdk/cli/commands/start.py (ServerState, CleanFileHandler),
* the starter watch handler of src/sbdk-starter/cli/start.py,
* the dev watch handler of src/sbdk/cli/commands/dev.py,
* the dbt executable resolution of src/sbdk-dev/sbdk/cli/dbt_utils.py,
* project initialisation of src/sbdk/cli/commands/init.py and the config
  loaders of src/sbdk/cli/commands/run.py, src/sbdk-dev/sbdk/cli/dev.py and
  src/sbdk-dev/sbdk/core/config.py.

Machine reals (time.time) are modelled as natural-number instants; the
debounce comparison `current - last < window` is rendered as
`current < last + window`, which agrees with the Python arithmetic on
exact values.  Console printing, rich progress display, the captured-log
buffer and the wall-clock display strings are not modelled: they do not
influence any of the state or responses the claims speak about.
-/

namespace SBDK

/-! ## Path helpers mirroring the pieces of pathlib the code uses

The helpers work on the character lists underlying strings, with plain
structural recursion, so that every concrete instance evaluates inside
the kernel. -/

/-- Does `pat` occur as a prefix of `l`? -/
def isPrefixList : List Char → List Char → Bool
  | [], _ => true
  | _ :: _, [] => false
  | a :: as, b :: bs => a = b && isPrefixList as bs

/-- Does `pat` occur as a contiguous sublist of `l`? -/
def containsList (l pat : List Char) : Bool :=
  isPrefixList pat l ||
    match l with
    | [] => false
    | _ :: t => containsList t pat

/-- Python `pat in s` membership test on strings. -/
def strContains (s pat : String) : Bool :=
  containsList s.data pat.data

/-- Split a character list at every occurrence of `sep`, like
`str.split(sep)` on a one-character separator. -/
def splitChar (sep : Char) : List Char → List (List Char)
  | [] => [[]]
  | a :: as =>
    let r := splitChar sep as
    if a = sep then [] :: r
    else
      match r with
      | [] => [[a]]
      | h :: t => (a :: h) :: t

/-- Python `Path(p).name`: the final path component. -/
def pathName (p : String) : String :=
  ⟨(splitChar '/' p.data).getLastD []⟩

/-- Rejoin dot-separated pieces, the inverse of splitting at dots. -/
def joinDots : List (List Char) → List Char
  | [] => []
  | [x] => x
  | x :: xs => x ++ '.' :: joinDots xs

/-- Python `Path(p).suffix`: the extension of the final component,
including the dot.  pathlib returns the part of the name from its last
dot onward, provided that dot is neither the first nor the last character
of the name; otherwise the suffix is empty. -/
def pathSuffix (p : String) : String :=
  let name := (splitChar '/' p.data).getLastD []
  let parts := splitChar '.' name
  if parts.length ≤ 1 then ""
  else
    let ext := parts.getLastD []
    let stem := joinDots parts.dropLast
    if stem ≠ [] ∧ ext ≠ [] then ⟨'.' :: ext⟩ else ""

/-- ASCII lower-casing of one character; the extensions the code compares
against are ASCII, where Python `str.lower` agrees with this. -/
def charLower (c : Char) : Char :=
  if 'A' ≤ c ∧ c ≤ 'Z' then Char.ofNat (c.toNat + 32) else c

/-- Python `s.lower()` on the ASCII fragment. -/
def strLower (s : String) : String :=
  ⟨s.data.map charLower⟩

/-- Python `s.endswith(pat)`. -/
def strEndsWith (s pat : String) : Bool :=
  isPrefixList pat.data.reverse s.data.reverse

/-- Python posix `Path(p).is_absolute()`. -/
def isAbsolute (p : String) : Bool :=
  match p.data with
  | c :: _ => c = '/'
  | [] => false

/-- Python `Path(p).resolve()` against a current working directory
(normalisation of dots is not needed for the paths that occur here). -/
def resolvePath (cwd p : String) : String :=
  if isAbsolute p then p else cwd ++ "/" ++ p

/-! ## Webhook server (src/sbdk/templates/fastapi_server/webhook_listener.py)

A JSON object body is modelled as an association list from keys to a
minimal value type: the handlers only ever compare the `ref` entry with a
string, so every non-string value is collapsed into one constructor. -/

/-- Minimal JSON value: a string, or anything else. -/
inductive JVal where
  | str (s : String)
  | other
  deriving DecidableEq, Repr

/-- A parsed JSON object body. -/
def Payload := List (String × JVal)

/-- Python `payload.get(k)` on a dict. -/
def payloadGet (p : Payload) (k : String) : Option JVal :=
  (p.find? (fun kv => kv.1 = k)).map (·.2)

/-- Background tasks the github handler can schedule via
`background_tasks.add_task`. -/
inductive BgTask where
  | mainBranchPush
  | pullRequest
  deriving DecidableEq, Repr

/-- The response body of `POST /webhook/github` (the `event_id` and
`message` entries, which are derived data, are elided). -/
structure GithubResponse where
  status : String
  event_type : String
  deriving DecidableEq, Repr

/-- `github_webhook` (webhook_listener.py lines 124-161).  `body = none`
stands for a request whose JSON cannot be parsed as an object, in which
case the surrounding `try` converts the exception into HTTP 400.
`eventHeader` is the value of the `x-github-event` request header.  The
result carries the scheduled background tasks next to the response. -/
def githubWebhook (body : Option Payload) (eventHeader : Option String) :
    Except Nat (GithubResponse × List BgTask) :=
  match body with
  | none => .error 400
  | some payload =>
    let event_type := eventHeader.getD "unknown"
    let tasks :=
      if event_type = "push" ∧ payloadGet payload "ref" = some (.str "refs/heads/main") then
        [BgTask.mainBranchPush]
      else if event_type = "pull_request" then
        [BgTask.pullRequest]
      else []
    .ok ({ status := "received", event_type := event_type }, tasks)

/-- Request body of `POST /track/usage` (the optional `duration_seconds`
and `metadata` entries do not influence the control flow and are elided). -/
structure UsageTracking where
  project_uuid : String
  command : String
  deriving DecidableEq, Repr

/-- In-memory server store: `REGISTERED_PROJECTS` (keys only; the stored
per-project record does not influence any response) and `USAGE_LOGS`. -/
structure WebhookStore where
  registered : List String
  usage_logs : List UsageTracking
  deriving DecidableEq, Repr

/-- Response body of `POST /track/usage` (derived `event_id` and fixed
`message` elided). -/
structure TrackResponse where
  status : String
  deriving DecidableEq, Repr

/-- `track_usage` (webhook_listener.py lines 96-121): a 404 `HTTPException`
is raised when the uuid is not registered; otherwise the event is appended
to the usage log and a 200 body is returned. -/
def trackUsage (st : WebhookStore) (u : UsageTracking) :
    Except Nat (TrackResponse × WebhookStore) :=
  if u.project_uuid ∈ st.registered then
    .ok ({ status := "tracked" },
         { st with usage_logs := st.usage_logs ++ [u] })
  else
    .error 404

/-- HTTP status of a handler outcome: FastAPI answers 200 for a normal
return and the carried code for an `HTTPException`. -/
def httpStatusOf {α : Type} : Except Nat α → Nat
  | .error c => c
  | .ok _ => 200

/-! ## Development server watch loop
(src/sbdk-dev/sbdk/cli/commands/start.py: ServerState, CleanFileHandler)

The pipeline run itself happens in a daemon thread whose body is
`_run_pipeline_sync`: it calls `start_pipeline_run` when it begins and
`finish_pipeline_run` when it ends.  The embedding therefore splits a run
into the start transition (performed where `_run_pipeline` is called) and
a separate completion transition `completeRun`, so that file events can be
processed while `pipeline_running` is true, exactly as in the threaded
original. -/

/-- One entry of `ServerState.file_changes` as built by `add_file_change`
(the display timestamp string is elided). -/
structure FileChange where
  file : String
  path : String
  ftype : String
  deriving DecidableEq, Repr

/-- `ServerState._get_file_type`. -/
def getFileType (p : String) : String :=
  if strContains p "pipeline" then "Pipeline"
  else if pathSuffix p = ".sql" then "dbt"
  else if pathSuffix p = ".yml" ∨ pathSuffix p = ".yaml" then "Config"
  else "Code"

/-- Python `l[-n:]`. -/
def takeLast {α : Type} (n : Nat) (l : List α) : List α :=
  l.drop (l.length - n)

/-- `ServerState` (start.py lines 65-117).  The captured-log buffer and the
display string `last_run_time` are elided; `watching_paths` is kept. -/
structure ServerState where
  pipeline_running : Bool
  last_run_success : Option Bool
  last_error : Option String
  total_runs : Nat
  successful_runs : Nat
  file_changes : List FileChange
  auto_run : Bool
  watching_paths : List String
  pending_manual_run : Bool
  deriving DecidableEq, Repr

/-- The state a fresh `ServerState()` starts in. -/
def ServerState.init : ServerState :=
  { pipeline_running := false
    last_run_success := none
    last_error := none
    total_runs := 0
    successful_runs := 0
    file_changes := []
    auto_run := true
    watching_paths := []
    pending_manual_run := false }

/-- `ServerState.add_file_change`: append the change, keep the last 10. -/
def addFileChange (s : ServerState) (fp : String) : ServerState :=
  { s with file_changes :=
      takeLast 10 (s.file_changes ++
        [{ file := pathName fp, path := fp, ftype := getFileType fp }]) }

/-- `ServerState.start_pipeline_run`. -/
def startPipelineRun (s : ServerState) : ServerState :=
  { s with pipeline_running := true
           total_runs := s.total_runs + 1
           pending_manual_run := false }

/-- `ServerState.finish_pipeline_run`. -/
def finishPipelineRun (s : ServerState) (success : Bool) (err : Option String) :
    ServerState :=
  { s with pipeline_running := false
           last_run_success := some success
           last_error := err
           successful_runs := s.successful_runs + (if success then 1 else 0) }

/-- The combined state of a `CleanFileHandler` together with the
`ServerState` it references (start.py lines 120-146). -/
structure HandlerState where
  server : ServerState
  debounce : Nat
  last_triggered : Nat
  pending_files : List String
  deriving DecidableEq, Repr

/-- Python set insertion `self.pending_files.add(p)` on the list model. -/
def insertFile (l : List String) (p : String) : List String :=
  if p ∈ l then l else l ++ [p]

/-- The extension allow-list of `CleanFileHandler.on_modified`. -/
def relevantExtensions : List String :=
  [".py", ".sql", ".yml", ".yaml", ".json"]

/-- `CleanFileHandler._run_pipeline` followed by the entry of the spawned
worker thread into `start_pipeline_run`: a no-op when a run is already in
flight, otherwise the run starts. -/
def runPipeline (h : HandlerState) : HandlerState :=
  if h.server.pipeline_running then h
  else { h with server := startPipelineRun h.server }

/-- `CleanFileHandler._process_changes` (start.py lines 148-170). -/
def processChanges (h : HandlerState) : HandlerState :=
  if h.pending_files = [] then h
  else
    let server := h.pending_files.foldl addFileChange h.server
    let h := { h with server := server, pending_files := [] }
    if h.server.auto_run ∧ ¬h.server.pipeline_running then
      runPipeline h
    else if ¬h.server.pipeline_running then
      { h with server := { h.server with pending_manual_run := true } }
    else h

/-- `CleanFileHandler.on_modified` (start.py lines 129-146) for an event at
instant `t`.  Directory events and events whose lower-cased suffix is not
in the allow-list return immediately; otherwise the path joins
`pending_files`, and the debounce gate either swallows the event or sets
`last_triggered` and processes the pending set. -/
def onModified (h : HandlerState) (isDir : Bool) (path : String) (t : Nat) :
    HandlerState :=
  if isDir then h
  else if strLower (pathSuffix path) ∈ relevantExtensions then
    let h := { h with pending_files := insertFile h.pending_files path }
    if t < h.last_triggered + h.debounce then h
    else processChanges { h with last_triggered := t }
  else h

/-- Exit of the worker thread of `_run_pipeline_sync`: the run finishes
with the given outcome. -/
def completeRun (h : HandlerState) (success : Bool) (err : Option String) :
    HandlerState :=
  { h with server := finishPipelineRun h.server success err }

/-- The `a` branch of `handle_command` in `cli_start` (start.py lines
379-390): flip `auto_run`; when it turns on with a pending recorded
change, run the pipeline immediately. -/
def toggleAuto (h : HandlerState) : HandlerState :=
  let h := { h with server := { h.server with auto_run := !h.server.auto_run } }
  if h.server.auto_run ∧ h.server.pending_manual_run then runPipeline h else h

/-- `CleanFileHandler.run_pipeline_manual` (the `r` command): a warning
no-op when a run is in flight, otherwise the pipeline runs. -/
def manualRun (h : HandlerState) : HandlerState :=
  if h.server.pipeline_running then h else runPipeline h

/-- Deliver a list of (path, instant) file events to the handler. -/
def processEvents (h : HandlerState) (evs : List (String × Nat)) : HandlerState :=
  evs.foldl (fun h ev => onModified h false ev.1 ev.2) h

/-! ## The other two watch handlers named by the specification -/

/-- State of `PipelineHandler` of src/sbdk-starter/cli/start.py (the
handler holds no server state; `runs` counts its direct `cli_dev()`
invocations). -/
structure StarterHandler where
  debounce : Nat
  last_triggered : Nat
  runs : Nat
  deriving DecidableEq, Repr

/-- `PipelineHandler.on_modified` (sbdk-starter/cli/start.py lines 26-48).
The debounce gate comes first and updates `last_triggered` before the
extension filter runs, so irrelevant files move the debounce timestamp. -/
def starterOnModified (h : StarterHandler) (isDir : Bool) (path : String)
    (t : Nat) : StarterHandler :=
  if isDir then h
  else if t < h.last_triggered + h.debounce then h
  else
    let h := { h with last_triggered := t }
    if strLower (pathSuffix path) ∈ relevantExtensions then
      { h with runs := h.runs + 1 }
    else h

/-- The extension filter of `DevFileHandler.on_modified`
(src/sbdk/cli/commands/dev.py lines 39-42): an `endswith` test on the full
source path against a list that has no `.json` entry. -/
def devFileRelevant (srcPath : String) : Bool :=
  [".py", ".sql", ".yml", ".yaml"].any (fun ext => strEndsWith srcPath ext)

/-! ## dbt executable resolution (src/sbdk-dev/sbdk/cli/dbt_utils.py)

`find_dbt_executable` only reads from the operating system: `sys.prefix`
(always present, so the `hasattr` guard is vacuous), `os.environ`,
`Path.home()`, `Path.exists` and `shutil.which`.  The world state is
threaded explicitly through every step so that the absence of mutation is
a statement about the definition rather than an assumption. -/

/-- The parts of the OS state `find_dbt_executable` consults.  `whichDbt`
is the result `shutil.which("dbt")` produces from PATH and the filesystem. -/
structure OSWorld where
  sysPrefixDir : String
  envVars : List (String × String)
  homeDir : String
  existingFiles : List String
  whichDbt : Option String
  deriving DecidableEq, Repr

/-- `os.path` existence check: reads the world, leaves it unchanged. -/
def osPathExists (p : String) (w : OSWorld) : Bool × OSWorld :=
  (p ∈ w.existingFiles, w)

/-- `os.environ.get`: reads the world, leaves it unchanged. -/
def osGetEnv (k : String) (w : OSWorld) : Option String × OSWorld :=
  (((w.envVars.find? (fun kv => kv.1 = k)).map (·.2)), w)

/-- `shutil.which("dbt")`: reads the world, leaves it unchanged. -/
def osWhichDbt (w : OSWorld) : Option String × OSWorld :=
  (w.whichDbt, w)

/-- `find_dbt_executable` (dbt_utils.py lines 15-54), threading the world
through each consultation.  Resolution order: the interpreter prefix bin
directory, then a truthy `VIRTUAL_ENV`, then the three well-known install
paths, then PATH lookup, else the failure message. -/
def findDbtExecutableW (w : OSWorld) : Except String String × OSWorld :=
  let venvDbt := w.sysPrefixDir ++ "/bin/dbt"
  let (ex1, w) := osPathExists venvDbt w
  if ex1 then (.ok venvDbt, w)
  else
    let (venvVar, w) := osGetEnv "VIRTUAL_ENV" w
    match venvVar with
    | some vp =>
      if vp ≠ "" then
        let envDbt := vp ++ "/bin/dbt"
        let (ex2, w) := osPathExists envDbt w
        if ex2 then (.ok envDbt, w) else findDbtUvPaths w
      else findDbtUvPaths w
    | none => findDbtUvPaths w
where
  /-- The `uv_paths` loop and the final PATH fallback of the source. -/
  findDbtUvPaths (w : OSWorld) : Except String String × OSWorld :=
    let p1 := w.homeDir ++ "/.local/bin/dbt"
    let (e1, w) := osPathExists p1 w
    if e1 then (.ok p1, w)
    else
      let p2 := w.homeDir ++ "/.cargo/bin/dbt"
      let (e2, w) := osPathExists p2 w
      if e2 then (.ok p2, w)
      else
        let p3 := "/usr/local/bin/dbt"
        let (e3, w) := osPathExists p3 w
        if e3 then (.ok p3, w)
        else
          let (sys, w) := osWhichDbt w
          match sys with
          | some s => (.ok s, w)
          | none =>
            (.error "dbt executable not found. Install with: uv add dbt-duckdb", w)

/-! ## Project initialisation and configuration loading
(src/sbdk/cli/commands/init.py, src/sbdk-dev/sbdk/core/config.py) -/

/-- The JSON object `cli_init` writes to `sbdk_config.json`
(init.py lines 79-90). -/
structure InitConfigFile where
  project : String
  target : String
  duckdb_path : String
  pipelines_path : String
  dbt_path : String
  profiles_dir : String
  deriving DecidableEq, Repr

/-- The `config` dict built by `cli_init` for a project name. -/
def initConfigFor (name : String) : InitConfigFile :=
  { project := name
    target := "dev"
    duckdb_path := "data/" ++ name ++ ".duckdb"
    pipelines_path := "./pipelines"
    dbt_path := "./dbt"
    profiles_dir := "~/.dbt" }

/-- `SBDKConfig` (core/config.py lines 11-32) with its pydantic defaults. -/
structure SBDKConfig where
  project : String
  target : String
  duckdb_path : String
  pipelines_path : String
  dbt_path : String
  profiles_dir : String
  webhook_port : Nat
  webhook_host : String
  auto_reload : Bool
  watch_paths : List String
  deriving DecidableEq, Repr

/-- `SBDKConfig.load_from_file` applied to a config file written by
`cli_init`: the six stored fields are taken verbatim from the JSON and the
remaining fields take their pydantic defaults.  No path resolution happens
at load time. -/
def loadInitConfig (f : InitConfigFile) : SBDKConfig :=
  { project := f.project
    target := f.target
    duckdb_path := f.duckdb_path
    pipelines_path := f.pipelines_path
    dbt_path := f.dbt_path
    profiles_dir := f.profiles_dir
    webhook_port := 8000
    webhook_host := "0.0.0.0"
    auto_reload := true
    watch_paths := ["pipelines/", "dbt/models/"] }

/-- `SBDKConfig.get_duckdb_path`: `Path(self.duckdb_path).resolve()`
against the working directory of the process. -/
def getDuckdbPath (cwd : String) (c : SBDKConfig) : String :=
  resolvePath cwd c.duckdb_path

/-- Filesystem writes `cli_init` can perform, in program order. -/
inductive FsOp where
  | mkdir (p : String)
  | copytree (src dst : String)
  | writeFile (p : String)
  | appendFile (p : String)
  deriving DecidableEq, Repr

/-- The parts of the pre-existing filesystem `cli_init` consults. -/
structure InitEnv where
  targetExists : Bool
  templateDirExists : String → Bool
  dbtProjectYmlExists : Bool
  profilesYmlExists : Bool

/-- `cli_init` (init.py lines 18-119) as a function from the observed
filesystem to either exit code 1 or the ordered list of writes it
performs.  The existence check on the target directory happens before any
write; every write of the success path is listed in program order
(the config write carries the content `initConfigFor name`). -/
def cliInit (env : InitEnv) (name : String) (force : Bool) :
    Except Nat (List FsOp) :=
  if env.targetExists ∧ ¬force then .error 1
  else .ok (
    [FsOp.mkdir name] ++
    ((["pipelines", "dbt", "fastapi_server"].filter env.templateDirExists).map
      (fun d => FsOp.copytree d (name ++ "/" ++ d))) ++
    (if env.dbtProjectYmlExists then [FsOp.writeFile (name ++ "/dbt/dbt_project.yml")] else []) ++
    [FsOp.writeFile (name ++ "/sbdk_config.json"),
     FsOp.mkdir (name ++ "/data"),
     FsOp.mkdir "~/.dbt",
     if env.profilesYmlExists then FsOp.appendFile "~/.dbt/profiles.yml"
     else FsOp.writeFile "~/.dbt/profiles.yml"])

/-! ## One-shot config loading (src/sbdk/cli/commands/run.py and
src/sbdk-dev/sbdk/cli/dev.py) -/

/-- The three observable states of the config file named by a one-shot
command. -/
inductive ConfigFileState where
  | missing
  | malformed
  | valid (c : InitConfigFile)
  deriving DecidableEq, Repr

/-- Outcome of a `load_config` call: a `typer.Exit(code)` after printing
(recording whether the printed message suggests running init), a loaded
config, or an exception that escapes the function uncaught. -/
inductive LoadOutcome where
  | exited (code : Nat) (suggestsInit : Bool)
  | loaded (c : InitConfigFile)
  | uncaught (exc : String)
  deriving DecidableEq, Repr

/-- `load_config` of src/sbdk/cli/commands/run.py (lines 28-35): only
`FileNotFoundError` is caught (with the message
"Config file not found. Run sbdk init first." and Exit 1); a body that is
not valid JSON raises `json.JSONDecodeError`, which escapes uncaught. -/
def loadConfigRun : ConfigFileState → LoadOutcome
  | .missing => .exited 1 true
  | .malformed => .uncaught "json.JSONDecodeError"
  | .valid c => .loaded c

/-- `load_config` of src/sbdk-dev/sbdk/cli/dev.py (lines 27-76): a missing
file (in every searched location) exits 1 suggesting init; malformed JSON
is caught as `json.JSONDecodeError` and exits 1 with an
"Invalid JSON in config file" message that does not suggest init.  The
path expansion performed on a successfully parsed config is not at issue
in the claims and the parsed value is passed through. -/
def loadConfigDevRobust : ConfigFileState → LoadOutcome
  | .missing => .exited 1 true
  | .malformed => .exited 1 false
  | .valid c => .loaded c

/-! ## Concrete sample states used by witnesses and counterexamples -/

/-- A freshly started development server: auto-run on, nothing running,
the default debounce window of 3 seconds, no pending files. -/
def idleHandler : HandlerState :=
  { server := ServerState.init, debounce := 3, last_triggered := 0,
    pending_files := [] }

/-- A server whose first pipeline run is currently in flight. -/
def busyHandler : HandlerState :=
  { server := { ServerState.init with pipeline_running := true, total_runs := 1 },
    debounce := 3, last_triggered := 0, pending_files := [] }

/-- A server with auto-run switched off and nothing running. -/
def manualHandler : HandlerState :=
  { server := { ServerState.init with auto_run := false },
    debounce := 3, last_triggered := 0, pending_files := [] }

/-- A freshly created starter `PipelineHandler` (debounce 2 seconds). -/
def starterIdle : StarterHandler :=
  { debounce := 2, last_triggered := 0, runs := 0 }

/-- A filesystem on which the init target directory already exists. -/
def initEnvOccupied : InitEnv :=
  { targetExists := true, templateDirExists := fun _ => true,
    dbtProjectYmlExists := true, profilesYmlExists := false }

/-! ## Helper lemmas -/

theorem insertFile_ne_nil (l : List String) (p : String) :
    insertFile l p ≠ [] := by
  unfold insertFile
  split
  · intro h
    subst h
    simp_all
  · simp

/-- Recording file changes touches only the `file_changes` list. -/
theorem foldl_addFileChange_fields (l : List String) (s : ServerState) :
    (l.foldl addFileChange s).pipeline_running = s.pipeline_running ∧
    (l.foldl addFileChange s).auto_run = s.auto_run ∧
    (l.foldl addFileChange s).total_runs = s.total_runs ∧
    (l.foldl addFileChange s).successful_runs = s.successful_runs ∧
    (l.foldl addFileChange s).pending_manual_run = s.pending_manual_run ∧
    (l.foldl addFileChange s).last_run_success = s.last_run_success := by
  induction l generalizing s with
  | nil => exact ⟨rfl, rfl, rfl, rfl, rfl, rfl⟩
  | cons a t ih => exact ih (addFileChange s a)

/-- Processing pending changes while idle with auto-run on starts exactly
one run. -/
theorem processChanges_idle_auto (h : HandlerState)
    (hne : h.pending_files ≠ [])
    (hauto : h.server.auto_run = true)
    (hidle : h.server.pipeline_running = false) :
    (processChanges h).server.total_runs = h.server.total_runs + 1 ∧
    (processChanges h).server.pipeline_running = true ∧
    (processChanges h).server.auto_run = true ∧
    (processChanges h).last_triggered = h.last_triggered ∧
    (processChanges h).debounce = h.debounce ∧
    (processChanges h).pending_files = [] := by
  have hf := foldl_addFileChange_fields h.pending_files h.server
  unfold processChanges
  rw [if_neg hne]
  rw [if_pos ⟨by rw [hf.2.1, hauto], by rw [hf.1, hidle]; simp⟩]
  unfold runPipeline
  rw [if_neg (by rw [hf.1, hidle]; simp)]
  unfold startPipelineRun
  exact ⟨by rw [hf.2.2.1], rfl, by rw [hf.2.1, hauto], rfl, rfl, rfl⟩

/-- Processing pending changes while a run is in flight only records them:
no run starts and no pending flag is set. -/
theorem processChanges_running (h : HandlerState)
    (hrun : h.server.pipeline_running = true) :
    (processChanges h).server.total_runs = h.server.total_runs ∧
    (processChanges h).server.pending_manual_run = h.server.pending_manual_run ∧
    (processChanges h).server.pipeline_running = true ∧
    (processChanges h).server.auto_run = h.server.auto_run := by
  unfold processChanges
  by_cases hne : h.pending_files = []
  · rw [if_pos hne]
    exact ⟨rfl, rfl, hrun, rfl⟩
  · have hf := foldl_addFileChange_fields h.pending_files h.server
    rw [if_neg hne]
    rw [if_neg (by rw [hf.1, hrun]; simp)]
    rw [if_neg (by rw [hf.1, hrun]; simp)]
    exact ⟨hf.2.2.1, hf.2.2.2.2.1, by rw [hf.1, hrun], hf.2.1⟩

/-- Processing pending changes while idle with auto-run off records them
and raises the pending-manual-run flag without starting a run. -/
theorem processChanges_manual (h : HandlerState)
    (hne : h.pending_files ≠ [])
    (hoff : h.server.auto_run = false)
    (hidle : h.server.pipeline_running = false) :
    (processChanges h).server.total_runs = h.server.total_runs ∧
    (processChanges h).server.pipeline_running = false ∧
    (processChanges h).server.auto_run = false ∧
    (processChanges h).server.pending_manual_run = true := by
  have hf := foldl_addFileChange_fields h.pending_files h.server
  unfold processChanges
  rw [if_neg hne]
  rw [if_neg (by rw [hf.2.1, hoff]; simp)]
  rw [if_pos (by rw [hf.1, hidle]; simp)]
  exact ⟨hf.2.2.1, by rw [hf.1, hidle], by rw [hf.2.1, hoff], rfl⟩

/-- An event that arrives inside the debounce window of the last trigger
only grows the pending set. -/
theorem onModified_suppressed (h : HandlerState) (p : String) (t : Nat)
    (hlt : t < h.last_triggered + h.debounce) :
    (onModified h false p t).server = h.server ∧
    (onModified h false p t).last_triggered = h.last_triggered ∧
    (onModified h false p t).debounce = h.debounce := by
  unfold onModified
  by_cases hrel : strLower (pathSuffix p) ∈ relevantExtensions
  · simp only [Bool.false_eq_true, if_false, if_pos hrel, if_pos hlt]
    simp
  · simp only [Bool.false_eq_true, if_false, if_neg hrel]
    simp

/-- A whole burst of events inside the debounce window of the last trigger
leaves the server state and the timer untouched. -/
theorem processEvents_within_window (evs : List (String × Nat))
    (h : HandlerState)
    (hall : ∀ ev ∈ evs, ev.2 < h.last_triggered + h.debounce) :
    (processEvents h evs).server = h.server ∧
    (processEvents h evs).last_triggered = h.last_triggered ∧
    (processEvents h evs).debounce = h.debounce := by
  induction evs generalizing h with
  | nil => exact ⟨rfl, rfl, rfl⟩
  | cons ev rest ih =>
    have hev := hall ev (by simp)
    have hstep := onModified_suppressed h ev.1 ev.2 hev
    have hrest : ∀ e ∈ rest,
        e.2 < (onModified h false ev.1 ev.2).last_triggered +
              (onModified h false ev.1 ev.2).debounce := by
      intro e he
      rw [hstep.2.1, hstep.2.2]
      exact hall e (List.mem_cons_of_mem _ he)
    have := ih (onModified h false ev.1 ev.2) hrest
    refine ⟨?_, ?_, ?_⟩
    · rw [show processEvents h (ev :: rest) =
        processEvents (onModified h false ev.1 ev.2) rest from rfl,
        this.1, hstep.1]
    · rw [show processEvents h (ev :: rest) =
        processEvents (onModified h false ev.1 ev.2) rest from rfl,
        this.2.1, hstep.2.1]
    · rw [show processEvents h (ev :: rest) =
        processEvents (onModified h false ev.1 ev.2) rest from rfl,
        this.2.2, hstep.2.2]

/-- Prepending to an absolute path keeps it absolute. -/
theorem isAbsolute_append (a b : String) (ha : isAbsolute a = true) :
    isAbsolute (a ++ b) = true := by
  have hd : (a ++ b).data = a.data ++ b.data := rfl
  unfold isAbsolute at ha ⊢
  rw [hd]
  cases hc : a.data with
  | nil => rw [hc] at ha; simp at ha
  | cons c l =>
    rw [hc] at ha
    simpa using ha

/-- Resolving any path against an absolute working directory yields an
absolute path. -/
theorem resolvePath_absolute (cwd p : String) (h : isAbsolute cwd = true) :
    isAbsolute (resolvePath cwd p) = true := by
  unfold resolvePath
  split
  · assumption
  · exact isAbsolute_append (cwd ++ "/") p (isAbsolute_append cwd "/" h)

/-- The uv-path fallback of `find_dbt_executable` leaves the world
unchanged. -/
theorem findDbtUvPaths_world (w : OSWorld) :
    (findDbtExecutableW.findDbtUvPaths w).2 = w := by
  unfold findDbtExecutableW.findDbtUvPaths osPathExists osWhichDbt
  dsimp only
  repeat' split
  all_goals rfl

/-- `find_dbt_executable` leaves the world unchanged. -/
theorem findDbtExecutableW_world (w : OSWorld) :
    (findDbtExecutableW w).2 = w := by
  unfold findDbtExecutableW osPathExists osGetEnv
  dsimp only
  repeat' split
  all_goals first
    | rfl
    | exact findDbtUvPaths_world w

/-- A path ending in `.json` never passes the `DevFileHandler` filter. -/
theorem devFileRelevant_json (s : String) :
    devFileRelevant (s ++ ".json") = false := by
  have hd : (s ++ ".json").data = s.data ++ ".json".data := rfl
  simp only [devFileRelevant, strEndsWith, List.any, hd, List.reverse_append]
  rfl

/-- Toggling auto-run on with a recorded pending change and no run in
flight starts exactly one run. -/
theorem toggleAuto_pending (x : HandlerState)
    (hoff : x.server.auto_run = false)
    (hpend : x.server.pending_manual_run = true)
    (hidle : x.server.pipeline_running = false) :
    (toggleAuto x).server.auto_run = true ∧
    (toggleAuto x).server.total_runs = x.server.total_runs + 1 ∧
    (toggleAuto x).server.pipeline_running = true := by
  refine ⟨?_, ?_, ?_⟩ <;>
    simp [toggleAuto, runPipeline, startPipelineRun, hoff, hpend, hidle]

/-! ## Claim C1 -/

/-- Claim C1, counterexample: a push payload whose `ref` is
`refs/heads/main` (which does end in `/main`) is answered with status
`received` and never with `rebuild_triggered`; the claimed response body
does not occur. -/
theorem github_webhook_main_push_not_rebuild_triggered :
    strEndsWith "refs/heads/main" "/main" = true ∧
    githubWebhook (some [("ref", JVal.str "refs/heads/main")]) (some "push") =
      .ok ({ status := "received", event_type := "push" }, [BgTask.mainBranchPush]) ∧
    ¬ ("received" = "rebuild_triggered") :=
  ⟨by decide, rfl, by decide⟩

/-- Claim C1, amended: every successfully parsed JSON body is answered
with status `received` (and the event type echoed from the
`x-github-event` header, defaulting to `unknown`); a rebuild background
task is scheduled exactly when that header is `push` and the `ref` entry
equals `refs/heads/main`. -/
theorem github_webhook_returns_received (payload : Payload) (hd : Option String) :
    ∃ r ts, githubWebhook (some payload) hd = .ok (r, ts) ∧
      r.status = "received" ∧ r.event_type = hd.getD "unknown" ∧
      (ts = [BgTask.mainBranchPush] ↔
        hd = some "push" ∧
          payloadGet payload "ref" = some (JVal.str "refs/heads/main")) := by
  refine ⟨_, _, rfl, rfl, rfl, ?_⟩
  by_cases h1 : hd.getD "unknown" = "push" ∧
      payloadGet payload "ref" = some (JVal.str "refs/heads/main")
  · rw [if_pos h1]
    constructor
    · intro _
      refine ⟨?_, h1.2⟩
      cases hd with
      | none => exact absurd h1.1 (by decide)
      | some s => exact congrArg some h1.1
    · intro _
      rfl
  · rw [if_neg h1]
    constructor
    · intro h
      by_cases h2 : hd.getD "unknown" = "pull_request"
      · rw [if_pos h2] at h
        exact absurd h (by decide)
      · rw [if_neg h2] at h
        exact absurd h (by decide)
    · rintro ⟨hp, hr⟩
      exact absurd ⟨by rw [hp]; rfl, hr⟩ h1

/-- Claim C1, witness for the amended theorem at a concrete payload. -/
theorem github_webhook_returns_received_witness :
    ∃ r ts,
      githubWebhook (some [("ref", JVal.str "refs/heads/feature-x")]) none =
        .ok (r, ts) ∧
      r.status = "received" ∧ r.event_type = "unknown" ∧
      (ts = [BgTask.mainBranchPush] ↔
        none = some "push" ∧
          payloadGet [("ref", JVal.str "refs/heads/feature-x")] "ref" =
            some (JVal.str "refs/heads/main")) :=
  github_webhook_returns_received [("ref", JVal.str "refs/heads/feature-x")] none

/-! ## Claim C8 -/

/-- Claim C8, counterexample: a usage-tracking request with an
unregistered uuid is answered 404, not 200. -/
theorem track_usage_unregistered_404 :
    httpStatusOf (trackUsage ⟨[], []⟩ ⟨"3f6c", "sbdk dev"⟩) = 404 ∧
    ¬ ((404 : Nat) = 200) :=
  ⟨by decide, by decide⟩

/-- Claim C8, amended: `POST /track/usage` is answered 200 and the event
is appended to the usage log exactly when the carried project uuid is
registered; an unregistered uuid is answered 404. -/
theorem track_usage_status_iff_registered (st : WebhookStore) (u : UsageTracking) :
    (httpStatusOf (trackUsage st u) = 200 ↔ u.project_uuid ∈ st.registered) ∧
    (httpStatusOf (trackUsage st u) = 404 ↔ u.project_uuid ∉ st.registered) ∧
    (u.project_uuid ∈ st.registered →
      ∃ st2, trackUsage st u = .ok ({ status := "tracked" }, st2) ∧
        st2.usage_logs = st.usage_logs ++ [u]) := by
  unfold trackUsage
  by_cases h : u.project_uuid ∈ st.registered
  · rw [if_pos h]
    exact ⟨by simp [httpStatusOf, h], by simp [httpStatusOf, h],
      fun _ => ⟨_, rfl, rfl⟩⟩
  · rw [if_neg h]
    exact ⟨by simp [httpStatusOf, h], by simp [httpStatusOf, h],
      fun hm => absurd hm h⟩

/-- Claim C8, witness for the amended theorem at a concrete store. -/
theorem track_usage_status_iff_registered_witness :
    httpStatusOf (trackUsage ⟨["u-1"], []⟩ ⟨"u-1", "sbdk dev"⟩) = 200 :=
  (track_usage_status_iff_registered ⟨["u-1"], []⟩ ⟨"u-1", "sbdk dev"⟩).1.mpr
    (by decide)

/-! ## Claim C9 -/

/-- Claim C9, counterexample: in the run command loader a config file
that exists but is not parseable JSON makes the decode error escape
uncaught; the call does not exit with code 1 and an init suggestion. -/
theorem load_config_malformed_uncaught :
    loadConfigRun .malformed = .uncaught "json.JSONDecodeError" ∧
    loadConfigRun .malformed ≠ .exited 1 true :=
  ⟨rfl, by decide⟩

/-- Claim C9, amended: a missing config file exits with code 1 and a
message suggesting init in both loader variants; a malformed config file
exits with code 1 but without an init suggestion in the robust loader,
while in the run-command loader the JSON decode error escapes uncaught. -/
theorem load_config_error_path_behaviour :
    loadConfigRun .missing = .exited 1 true ∧
    loadConfigDevRobust .missing = .exited 1 true ∧
    loadConfigDevRobust .malformed = .exited 1 false ∧
    loadConfigRun .malformed = .uncaught "json.JSONDecodeError" :=
  ⟨rfl, rfl, rfl, rfl⟩

/-! ## Claim C10 -/

/-- Claim C10: when the target directory already exists and force is not
given, `cli_init` exits with code 1 without performing a single
filesystem write. -/
theorem cli_init_existing_no_force_unchanged (env : InitEnv) (name : String)
    (hex : env.targetExists = true) :
    cliInit env name false = .error 1 := by
  unfold cliInit
  rw [if_pos ⟨hex, by decide⟩]

/-- Claim C10, witness at a concrete occupied filesystem. -/
theorem cli_init_existing_no_force_unchanged_witness :
    initEnvOccupied.targetExists = true ∧
    cliInit initEnvOccupied "demo" false = .error 1 :=
  ⟨rfl, cli_init_existing_no_force_unchanged initEnvOccupied "demo" rfl⟩

/-! ## Claim C2 -/

/-- Claim C2, counterexample: two relevant events at instants 100 and 101
on an idle server produce exactly one run, but the debounce timestamp
stays at 100, the instant of the trigger: it is not reset by the second
relevant event, contrary to the stated reset-on-each-event policy. -/
theorem clean_handler_timer_not_reset_on_second_event :
    (processEvents idleHandler [("a.py", 100), ("b.py", 101)]).server.total_runs = 1 ∧
    (processEvents idleHandler [("a.py", 100), ("b.py", 101)]).last_triggered = 100 ∧
    ¬ ((processEvents idleHandler [("a.py", 100), ("b.py", 101)]).last_triggered = 101) :=
  ⟨by decide, by decide, by decide⟩

/-- Claim C2, amended: on an idle server with auto-run on, a burst whose
first relevant event arrives after the debounce window of the previous
trigger and whose remaining events all fall within the window of the
first one triggers exactly one run, and the debounce timestamp is set to
the instant of the first event (it does not move on later events of the
burst). -/
theorem clean_handler_burst_single_trigger (h : HandlerState) (p1 : String)
    (t1 : Nat) (rest : List (String × Nat))
    (hauto : h.server.auto_run = true)
    (hidle : h.server.pipeline_running = false)
    (hrel : strLower (pathSuffix p1) ∈ relevantExtensions)
    (hquiet : h.last_triggered + h.debounce ≤ t1)
    (hwin : ∀ ev ∈ rest, ev.2 < t1 + h.debounce) :
    (processEvents h ((p1, t1) :: rest)).server.total_runs =
      h.server.total_runs + 1 ∧
    (processEvents h ((p1, t1) :: rest)).last_triggered = t1 := by
  have h1eq : onModified h false p1 t1 =
      processChanges
        { h with pending_files := insertFile h.pending_files p1,
                 last_triggered := t1 } := by
    unfold onModified
    simp only [Bool.false_eq_true, if_false, if_pos hrel]
    rw [if_neg (Nat.not_lt.mpr hquiet)]
  have hpc := processChanges_idle_auto
    { h with pending_files := insertFile h.pending_files p1,
             last_triggered := t1 }
    (insertFile_ne_nil _ _) hauto hidle
  have hall : ∀ ev ∈ rest,
      ev.2 < (processChanges
          { h with pending_files := insertFile h.pending_files p1,
                   last_triggered := t1 }).last_triggered +
        (processChanges
          { h with pending_files := insertFile h.pending_files p1,
                   last_triggered := t1 }).debounce := by
    intro ev he
    rw [hpc.2.2.2.1, hpc.2.2.2.2.1]
    exact hwin ev he
  have hfin := processEvents_within_window rest _ hall
  have hstep : processEvents h ((p1, t1) :: rest) =
      processEvents (onModified h false p1 t1) rest := rfl
  constructor
  · rw [hstep, h1eq, hfin.1, hpc.1]
  · rw [hstep, h1eq, hfin.2.1, hpc.2.2.2.1]

/-- Claim C2, witness for the amended theorem: a concrete burst of three
relevant events at instants 100, 101 and 102 on a fresh server. -/
theorem clean_handler_burst_single_trigger_witness :
    idleHandler.server.auto_run = true ∧
    idleHandler.server.pipeline_running = false ∧
    strLower (pathSuffix "pipelines/users.py") ∈ relevantExtensions ∧
    idleHandler.last_triggered + idleHandler.debounce ≤ 100 ∧
    (101 < 100 + idleHandler.debounce ∧ 102 < 100 + idleHandler.debounce) ∧
    (processEvents idleHandler
        [("pipelines/users.py", 100), ("dbt/models/stg.sql", 101),
         ("sbdk_config.json", 102)]).server.total_runs =
      idleHandler.server.total_runs + 1 :=
  ⟨rfl, rfl, by decide, by decide, ⟨by decide, by decide⟩,
    (clean_handler_burst_single_trigger idleHandler "pipelines/users.py" 100
      [("dbt/models/stg.sql", 101), ("sbdk_config.json", 102)]
      rfl rfl (by decide) (by decide) (by decide)).1⟩

/-! ## Claim C3 -/

/-- Claim C3, counterexample: a relevant change processed while the first
run is in flight (auto-run on) leads to no additional run after the run
completes: the total stays at 1 instead of the claimed 2, and no pending
flag is left to start one later. -/
theorem change_during_run_cex :
    busyHandler.server.pipeline_running = true ∧
    busyHandler.server.auto_run = true ∧
    busyHandler.server.total_runs = 1 ∧
    (completeRun (onModified busyHandler false "pipelines/users.py" 100)
        true none).server.total_runs = 1 ∧
    ¬ ((completeRun (onModified busyHandler false "pipelines/users.py" 100)
        true none).server.total_runs = busyHandler.server.total_runs + 1) ∧
    (completeRun (onModified busyHandler false "pipelines/users.py" 100)
        true none).server.pending_manual_run = false :=
  ⟨rfl, rfl, rfl, by decide, by decide, by decide⟩

/-- Claim C3, amended: a relevant change processed while a run is in
flight is only recorded: after the run completes, the number of started
runs is unchanged and the pending-manual-run flag is exactly what it was
before, so no additional rerun happens on its account. -/
theorem change_during_run_no_extra_rerun (h : HandlerState) (p : String)
    (t : Nat) (success : Bool) (err : Option String)
    (hrun : h.server.pipeline_running = true)
    (hrel : strLower (pathSuffix p) ∈ relevantExtensions)
    (hquiet : h.last_triggered + h.debounce ≤ t) :
    (completeRun (onModified h false p t) success err).server.total_runs =
      h.server.total_runs ∧
    (completeRun (onModified h false p t) success err).server.pending_manual_run =
      h.server.pending_manual_run ∧
    (completeRun (onModified h false p t) success err).server.pipeline_running =
      false := by
  have h1eq : onModified h false p t =
      processChanges
        { h with pending_files := insertFile h.pending_files p,
                 last_triggered := t } := by
    unfold onModified
    simp only [Bool.false_eq_true, if_false, if_pos hrel]
    rw [if_neg (Nat.not_lt.mpr hquiet)]
  have hpc := processChanges_running
    { h with pending_files := insertFile h.pending_files p,
             last_triggered := t } hrun
  refine ⟨?_, ?_, rfl⟩
  · rw [h1eq]
    exact hpc.1
  · rw [h1eq]
    exact hpc.2.1

/-- Claim C3, witness for the amended theorem at the concrete busy
server. -/
theorem change_during_run_no_extra_rerun_witness :
    busyHandler.server.pipeline_running = true ∧
    strLower (pathSuffix "pipelines/users.py") ∈ relevantExtensions ∧
    busyHandler.last_triggered + busyHandler.debounce ≤ 100 ∧
    (completeRun (onModified busyHandler false "pipelines/users.py" 100)
        true none).server.total_runs = busyHandler.server.total_runs :=
  ⟨rfl, by decide, by decide,
    (change_during_run_no_extra_rerun busyHandler "pipelines/users.py" 100
      true none rfl (by decide) (by decide)).1⟩

/-! ## Claim C4 -/

/-- Claim C4: with auto-run off and no run in flight, a relevant change
event is recorded (the pending-manual-run flag goes up) without starting
a run, and toggling auto-run back on then starts exactly one run. -/
theorem manual_mode_records_then_toggle_runs_once (h : HandlerState)
    (p : String) (t : Nat)
    (hoff : h.server.auto_run = false)
    (hidle : h.server.pipeline_running = false)
    (hrel : strLower (pathSuffix p) ∈ relevantExtensions)
    (hquiet : h.last_triggered + h.debounce ≤ t) :
    (onModified h false p t).server.total_runs = h.server.total_runs ∧
    (onModified h false p t).server.pipeline_running = false ∧
    (onModified h false p t).server.pending_manual_run = true ∧
    (toggleAuto (onModified h false p t)).server.auto_run = true ∧
    (toggleAuto (onModified h false p t)).server.total_runs =
      h.server.total_runs + 1 ∧
    (toggleAuto (onModified h false p t)).server.pipeline_running = true := by
  have h1eq : onModified h false p t =
      processChanges
        { h with pending_files := insertFile h.pending_files p,
                 last_triggered := t } := by
    unfold onModified
    simp only [Bool.false_eq_true, if_false, if_pos hrel]
    rw [if_neg (Nat.not_lt.mpr hquiet)]
  have hpc := processChanges_manual
    { h with pending_files := insertFile h.pending_files p,
             last_triggered := t }
    (insertFile_ne_nil _ _) hoff hidle
  have htog := toggleAuto_pending (onModified h false p t)
    (by rw [h1eq]; exact hpc.2.2.1)
    (by rw [h1eq]; exact hpc.2.2.2)
    (by rw [h1eq]; exact hpc.2.1)
  refine ⟨?_, ?_, ?_, htog.1, ?_, htog.2.2⟩
  · rw [h1eq]
    exact hpc.1
  · rw [h1eq]
    exact hpc.2.1
  · rw [h1eq]
    exact hpc.2.2.2
  · rw [htog.2.1, h1eq, hpc.1]

/-- Claim C4, witness at the concrete server with auto-run off. -/
theorem manual_mode_records_then_toggle_runs_once_witness :
    manualHandler.server.auto_run = false ∧
    manualHandler.server.pipeline_running = false ∧
    strLower (pathSuffix "pipelines/users.py") ∈ relevantExtensions ∧
    manualHandler.last_triggered + manualHandler.debounce ≤ 50 ∧
    (toggleAuto (onModified manualHandler false "pipelines/users.py" 50)).server.total_runs =
      manualHandler.server.total_runs + 1 :=
  ⟨rfl, rfl, by decide, by decide,
    (manual_mode_records_then_toggle_runs_once manualHandler
      "pipelines/users.py" 50 rfl rfl (by decide) (by decide)).2.2.2.2.1⟩

/-! ## Claim C5 -/

/-- Claim C5, counterexample: in the starter watch handler an event for a
file with an irrelevant extension does change the watch state when it
arrives past the debounce window: the debounce timestamp moves to the
event instant (it can then suppress a following relevant event), even
though no run is triggered. -/
theorem starter_handler_irrelevant_file_moves_timer :
    strLower (pathSuffix "/x/notes.txt") ∉ relevantExtensions ∧
    (starterOnModified starterIdle false "/x/notes.txt" 100).runs =
      starterIdle.runs ∧
    ¬ (starterOnModified starterIdle false "/x/notes.txt" 100 = starterIdle) ∧
    (starterOnModified starterIdle false "/x/notes.txt" 100).last_triggered = 100 :=
  ⟨by decide, by decide, by decide, by decide⟩

/-- Claim C5, amended: in `CleanFileHandler` an event whose lower-cased
suffix is outside the allow-list triggers nothing and leaves the whole
handler and server state unchanged; the `DevFileHandler` allow-list,
however, omits `.json`, so files ending in `.json` are not relevant
there (and the starter handler moves its debounce timestamp even for
irrelevant files, per the counterexample). -/
theorem clean_handler_irrelevant_extension_frame (h : HandlerState)
    (p : String) (t : Nat)
    (hirr : strLower (pathSuffix p) ∉ relevantExtensions) :
    onModified h false p t = h ∧
    (∀ s : String, devFileRelevant (s ++ ".json") = false) := by
  constructor
  · unfold onModified
    simp only [Bool.false_eq_true, if_false, if_neg hirr]
  · exact devFileRelevant_json

/-- Claim C5, witness for the amended theorem at a concrete event. -/
theorem clean_handler_irrelevant_extension_frame_witness :
    strLower (pathSuffix "/x/notes.txt") ∉ relevantExtensions ∧
    onModified idleHandler false "/x/notes.txt" 100 = idleHandler :=
  ⟨by decide,
    (clean_handler_irrelevant_extension_frame idleHandler "/x/notes.txt" 100
      (by decide)).1⟩

/-! ## Claim C6 -/

/-- Claim C6: dbt executable resolution mutates nothing (the OS world
after a call is the world before it) and is idempotent: a second call on
the resulting world returns the same executable path or error. -/
theorem find_dbt_executable_idempotent_no_mutation (w : OSWorld) :
    (findDbtExecutableW w).2 = w ∧
    (findDbtExecutableW ((findDbtExecutableW w).2)).1 = (findDbtExecutableW w).1 :=
  ⟨findDbtExecutableW_world w, by rw [findDbtExecutableW_world w]⟩

/-! ## Claim C7 -/

/-- Claim C7, counterexample: loading back the config written by init for
the project `demo` round-trips the project name, but every path field is
a relative path, not an absolute one. -/
theorem init_config_paths_not_absolute :
    (loadInitConfig (initConfigFor "demo")).project = "demo" ∧
    isAbsolute (loadInitConfig (initConfigFor "demo")).duckdb_path = false ∧
    isAbsolute (loadInitConfig (initConfigFor "demo")).pipelines_path = false ∧
    isAbsolute (loadInitConfig (initConfigFor "demo")).dbt_path = false ∧
    isAbsolute (loadInitConfig (initConfigFor "demo")).profiles_dir = false :=
  ⟨rfl, by decide, by decide, by decide, by decide⟩

/-- Claim C7, amended: loading back an init-written config yields the
project name passed to init and exactly the relative path strings init
wrote; absolute paths arise only through the accessor methods, e.g.
`get_duckdb_path`, which resolves against the (absolute) working
directory. -/
theorem init_config_roundtrip_project_and_paths (name cwd : String)
    (hcwd : isAbsolute cwd = true) :
    (loadInitConfig (initConfigFor name)).project = name ∧
    (loadInitConfig (initConfigFor name)).duckdb_path =
      "data/" ++ name ++ ".duckdb" ∧
    (loadInitConfig (initConfigFor name)).pipelines_path = "./pipelines" ∧
    (loadInitConfig (initConfigFor name)).dbt_path = "./dbt" ∧
    (loadInitConfig (initConfigFor name)).profiles_dir = "~/.dbt" ∧
    isAbsolute (getDuckdbPath cwd (loadInitConfig (initConfigFor name))) = true :=
  ⟨rfl, rfl, rfl, rfl, rfl, resolvePath_absolute cwd _ hcwd⟩

/-- Claim C7, witness for the amended theorem at a concrete name and
working directory. -/
theorem init_config_roundtrip_project_and_paths_witness :
    isAbsolute "/home/user" = true ∧
    (loadInitConfig (initConfigFor "demo")).project = "demo" ∧
    isAbsolute (getDuckdbPath "/home/user" (loadInitConfig (initConfigFor "demo"))) = true :=
  ⟨by decide,
    (init_config_roundtrip_project_and_paths "demo" "/home/user" (by decide)).1,
    (init_config_roundtrip_project_and_paths "demo" "/home/user" (by decide)).2.2.2.2.2⟩

end SBDK
